import Mathlib

/-!
Formal model of the foyer storage admission subsystem, the `None` no-op
store, and the bench configuration pipeline, shallowly embedded from the
Rust sources:

* `src/foyer-storage/src/admission/rated_ticket.rs`
* `src/foyer-storage/src/admission/mod.rs`
* `src/foyer-storage/src/none.rs`
* `src/foyer-storage-bench/src/main.rs`

Interior mutability through atomics and `OnceLock` is modelled by explicit
state passing; a panicking `unwrap` is modelled by `Option` with `none` for
the panic.
-/

namespace Foyer

/-- Modelled from the spec: the token bucket `RatedTicket` from
`foyer_common::rated_ticket` is not among the sources.  Per spec section 4.E
it is a token bucket refilled at a configured `rate_bytes_per_sec`; `probe`
answers whether the bucket currently has capacity, and `reduce` debits the
bucket by a number of bytes.  The balance may go negative after a debit, so
it is an integer. -/
structure RatedTicket where
  rate : Nat
  quota : Int
deriving Repr, DecidableEq

/-- Modelled from the spec: a fresh token bucket for `rate` bytes per
second starts with capacity. -/
def RatedTicket.new (rate : Nat) : RatedTicket :=
  { rate := rate, quota := (rate : Int) }

/-- Modelled from the spec: the non-blocking probe is true iff the bucket
has capacity. -/
def RatedTicket.probe (t : RatedTicket) : Bool :=
  0 < t.quota

/-- Modelled from the spec: debit the bucket by `delta` bytes. -/
def RatedTicket.reduce (t : RatedTicket) (delta : Nat) : RatedTicket :=
  { t with quota := t.quota - (delta : Int) }

/-- The slice of `Metrics` read by the rated-ticket admission policy: the
cumulative flushed-bytes counter `op_bytes_flush`
(`rated_ticket.rs` line 74 reads only this field). -/
structure Metrics where
  op_bytes_flush : Nat
deriving Repr, DecidableEq

/-- `AdmissionContext` from `src/foyer-storage/src/admission/mod.rs`: a
catalog handle and a metrics handle.  The catalog is never read by the
rated-ticket policy and its type is not among the sources, so it is kept as
an erased placeholder. -/
structure AdmissionContext where
  catalog : Unit
  metrics : Metrics
deriving Repr, DecidableEq

/-- `RatedTicketAdmissionPolicy` from
`src/foyer-storage/src/admission/rated_ticket.rs`: the inner token bucket,
the last sampled value of the flushed-bytes counter (`AtomicUsize`), and
the `OnceLock` context modelled as an `Option`. -/
structure RatedTicketAdmissionPolicy where
  inner : RatedTicket
  last : Nat
  context : Option AdmissionContext
deriving Repr, DecidableEq

namespace RatedTicketAdmissionPolicy

/-- `RatedTicketAdmissionPolicy::new` (rated_ticket.rs lines 48-54): a
fresh ticket for `rate`, `last` defaulted to 0, the context lock empty. -/
def new (rate : Nat) : RatedTicketAdmissionPolicy :=
  { inner := RatedTicket.new rate, last := 0, context := none }

/-- `init` (rated_ticket.rs lines 66-68): `self.context.set(context).unwrap()`.
`OnceLock::set` succeeds only when the lock is empty; on an occupied lock it
returns `Err`, which the `unwrap` turns into a panic, modelled by `none`. -/
def init (p : RatedTicketAdmissionPolicy) (context : AdmissionContext) :
    Option RatedTicketAdmissionPolicy :=
  match p.context with
  | none => some { p with context := some context }
  | some _ => none

/-- `judge` (rated_ticket.rs lines 70-84).  The probe result is taken first;
then the cumulative flushed-bytes counter is sampled, the saturating delta
against `last` computed (`Nat` subtraction is saturating), and when the
delta is positive `last` is advanced and the bucket debited.  The result is
the probe taken at entry.  `none` models the panic of
`self.context.get().unwrap()` when `init` has never run; the key is unused
by the body. -/
def judge {K : Type} (p : RatedTicketAdmissionPolicy) (_key : K) :
    Option (Bool × RatedTicketAdmissionPolicy) :=
  match p.context with
  | none => none
  | some ctx =>
    let res := p.inner.probe
    let current := ctx.metrics.op_bytes_flush
    let last := p.last
    let delta := current - last
    if 0 < delta then
      some (res, { p with last := current, inner := p.inner.reduce delta })
    else
      some (res, p)

/-- `on_insert` (rated_ticket.rs line 86): an empty body, the policy state
is untouched. -/
def on_insert {K : Type} (p : RatedTicketAdmissionPolicy) (_key : K)
    (_judge : Bool) : RatedTicketAdmissionPolicy :=
  p

/-- `on_drop` (rated_ticket.rs line 88): an empty body, the policy state is
untouched. -/
def on_drop {K : Type} (p : RatedTicketAdmissionPolicy) (_key : K)
    (_judge : Bool) : RatedTicketAdmissionPolicy :=
  p

end RatedTicketAdmissionPolicy

/-- The error type of `crate::error::Result`.  Its constructors are not
among the sources; one representative constructor keeps the type
inhabited so that returning `Ok` is not vacuous. -/
inductive StorageError where
  | io : StorageError
deriving Repr, DecidableEq

/-- `crate::error::Result<T>`. -/
abbrev SResult (α : Type) := Except StorageError α

/-- `crate::compress::Compression`; the `None` store only ever produces
`Compression::None` (none.rs line 68), the spec lists at least `Zstd`
besides. -/
inductive Compression where
  | none : Compression
  | zstd : Compression
deriving Repr, DecidableEq

/-- `NoneStoreWriter` from `src/foyer-storage/src/none.rs` lines 25-46: it
holds only the key. -/
structure NoneStoreWriter (K V : Type) where
  key : K
deriving Repr, DecidableEq

namespace NoneStoreWriter

/-- `NoneStoreWriter::new` (none.rs lines 40-45). -/
def new {K V : Type} (key : K) : NoneStoreWriter K V :=
  { key := key }

/-- `judge` (none.rs lines 57-59): always `false`. -/
def judge {K V : Type} (_w : NoneStoreWriter K V) : Bool :=
  false

/-- `force` (none.rs line 61): a no-op. -/
def force {K V : Type} (w : NoneStoreWriter K V) : NoneStoreWriter K V :=
  w

/-- `finish` (none.rs lines 63-65): always `Ok(false)`. -/
def finish {K V : Type} (_w : NoneStoreWriter K V) (_value : V) :
    SResult Bool :=
  .ok false

/-- `compression` (none.rs lines 67-69): always `Compression::None`. -/
def compression {K V : Type} (_w : NoneStoreWriter K V) : Compression :=
  .none

/-- `set_compression` (none.rs line 71): a no-op. -/
def set_compression {K V : Type} (w : NoneStoreWriter K V)
    (_c : Compression) : NoneStoreWriter K V :=
  w

end NoneStoreWriter

/-- `NoneStore` from `src/foyer-storage/src/none.rs` line 75: a unit struct
(`PhantomData` only). -/
structure NoneStore (K V : Type) where
deriving Repr, DecidableEq

namespace NoneStore

/-- `open` (none.rs lines 93-95): the config is `()` and opening always
succeeds. -/
def openStore (K V : Type) (_config : Unit) : SResult (NoneStore K V) :=
  .ok {}

/-- `is_ready` (none.rs lines 97-99): always `true`. -/
def is_ready {K V : Type} (_s : NoneStore K V) : Bool :=
  true

/-- `close` (none.rs lines 101-103): always `Ok(())`. -/
def close {K V : Type} (_s : NoneStore K V) : SResult Unit :=
  .ok ()

/-- `writer` (none.rs lines 105-107). -/
def writer {K V : Type} (_s : NoneStore K V) (key : K) :
    NoneStoreWriter K V :=
  NoneStoreWriter.new key

/-- `lookup` (none.rs lines 117-123): always `Ok(None)`. -/
def lookup {K V Q : Type} (_s : NoneStore K V) (_q : Q) :
    SResult (Option V) :=
  .ok none

/-- `remove` (none.rs lines 125-131): always `Ok(false)`. -/
def remove {K V Q : Type} (_s : NoneStore K V) (_q : Q) : SResult Bool :=
  .ok false

/-- `clear` (none.rs lines 133-135): always `Ok(())`. -/
def clear {K V : Type} (_s : NoneStore K V) : SResult Unit :=
  .ok ()

end NoneStore

/-- `exists` (none.rs lines 109-115): always `Ok(false)`, for any borrowed
query type. -/
def NoneStore.exists {K V Q : Type} (_s : NoneStore K V) (_q : Q) :
    SResult Bool :=
  .ok false

/-- Modelled from the spec: `RatedTicketReinsertionPolicy` is not among the
sources; per spec section 4.F it has the same shape as the admission
policy, carrying a rated ticket constructed from `rate_bytes_per_sec`. -/
structure RatedTicketReinsertionPolicy where
  inner : RatedTicket
deriving Repr, DecidableEq

/-- Modelled from the spec: construction mirrors
`RatedTicketAdmissionPolicy::new`. -/
def RatedTicketReinsertionPolicy.new (rate : Nat) :
    RatedTicketReinsertionPolicy :=
  { inner := RatedTicket.new rate }

/-- The bench CLI arguments consumed by the configuration pipeline of
`src/foyer-storage-bench/src/main.rs` lines 380-415 (all `usize`). -/
structure Args where
  ticket_insert_rate_limit : Nat
  ticket_reinsert_rate_limit : Nat
  clean_region_threshold : Nat
  reclaimers : Nat
  flushers : Nat
  recover_concurrency : Nat
  catalog_bits : Nat
deriving Repr, DecidableEq

/-- The slice of `FsStoreConfig` built by the bench (main.rs lines
403-415); device, eviction and compression settings are orthogonal to the
claims and omitted. -/
structure FsStoreConfig where
  admissions : List RatedTicketAdmissionPolicy
  reinsertions : List RatedTicketReinsertionPolicy
  flushers : Nat
  reclaimers : Nat
  recover_concurrency : Nat
  clean_region_threshold : Nat
  catalog_bits : Nat
deriving Repr, DecidableEq

/-- The bench configuration pipeline, main.rs lines 380-415: the admission
policy list gets a rated-ticket policy at `ticket_insert_rate_limit` MiB/s
exactly when that limit is positive, likewise for reinsertion; a zero
`clean_region_threshold` is replaced by `reclaimers`. -/
def build_config (a : Args) : FsStoreConfig :=
  let admissions :=
    if 0 < a.ticket_insert_rate_limit then
      [RatedTicketAdmissionPolicy.new (a.ticket_insert_rate_limit * 1024 * 1024)]
    else []
  let reinsertions :=
    if 0 < a.ticket_reinsert_rate_limit then
      [RatedTicketReinsertionPolicy.new (a.ticket_reinsert_rate_limit * 1024 * 1024)]
    else []
  let clean_region_threshold :=
    if a.clean_region_threshold = 0 then a.reclaimers
    else a.clean_region_threshold
  { admissions := admissions
    reinsertions := reinsertions
    flushers := a.flushers
    reclaimers := a.reclaimers
    recover_concurrency := a.recover_concurrency
    clean_region_threshold := clean_region_threshold
    catalog_bits := a.catalog_bits }


/-!  Theorems settling the claims. -/

/-- Claim C1: whenever `judge` returns, its boolean equals the probe of the
inner token bucket taken at the start of the call, before this call applies
any debit, i.e. the result is true iff the token bucket had capacity. -/
theorem judge_returns_initial_probe {K : Type}
    (p : RatedTicketAdmissionPolicy) (k : K) (r : Bool)
    (q : RatedTicketAdmissionPolicy)
    (h : p.judge k = some (r, q)) :
    r = p.inner.probe ∧ (r = true ↔ 0 < p.inner.quota) := by
  cases hc : p.context with
  | none => simp [RatedTicketAdmissionPolicy.judge, hc] at h
  | some ctx =>
    simp only [RatedTicketAdmissionPolicy.judge, hc] at h
    split at h <;>
      (injection h with h1
       injection h1 with hr hqq
       subst hr
       exact ⟨rfl, by simp [RatedTicket.probe]⟩)

/-- Witness for C1 at a concrete policy state: the context is set, the
bucket has quota 100 and the flushed-bytes counter reads 10. -/
theorem judge_returns_initial_probe_witness :
    true = (RatedTicketAdmissionPolicy.mk ⟨100, 100⟩ 0
      (some ⟨(), ⟨10⟩⟩)).inner.probe ∧
    (true = true ↔
      0 < (RatedTicketAdmissionPolicy.mk ⟨100, 100⟩ 0
        (some ⟨(), ⟨10⟩⟩)).inner.quota) :=
  judge_returns_initial_probe
    (RatedTicketAdmissionPolicy.mk ⟨100, 100⟩ 0 (some ⟨(), ⟨10⟩⟩))
    (0 : Nat) true
    (RatedTicketAdmissionPolicy.mk ⟨100, 90⟩ 10 (some ⟨(), ⟨10⟩⟩))
    (by decide)

/-- Claim C2: a returning `judge` call samples `op_bytes_flush`; when the
sample exceeds `last` the bucket is debited by exactly the difference and
`last` advances to the sample; otherwise — the saturating subtraction being
zero, also on a regressed counter — the state is returned unchanged. -/
theorem judge_samples_and_debits {K : Type}
    (p : RatedTicketAdmissionPolicy) (ctx : AdmissionContext) (k : K)
    (h : p.context = some ctx) :
    (p.last < ctx.metrics.op_bytes_flush →
      p.judge k = some (p.inner.probe,
        { p with last := ctx.metrics.op_bytes_flush,
                 inner := p.inner.reduce
                   (ctx.metrics.op_bytes_flush - p.last) })) ∧
    (ctx.metrics.op_bytes_flush ≤ p.last →
      p.judge k = some (p.inner.probe, p)) := by
  constructor
  · intro hlt
    simp only [RatedTicketAdmissionPolicy.judge, h]
    rw [if_pos (Nat.sub_pos_of_lt hlt)]
  · intro hle
    simp only [RatedTicketAdmissionPolicy.judge, h]
    rw [if_neg (by omega)]

/-- Witness for C2: both branches at concrete states — a counter ahead of
`last` debits the bucket and advances `last`; a counter at `last` leaves
the state untouched. -/
theorem judge_samples_and_debits_witness :
    (RatedTicketAdmissionPolicy.mk ⟨100, 100⟩ 0
        (some ⟨(), ⟨10⟩⟩)).judge (0 : Nat)
      = some (true, RatedTicketAdmissionPolicy.mk ⟨100, 90⟩ 10
        (some ⟨(), ⟨10⟩⟩)) ∧
    (RatedTicketAdmissionPolicy.mk ⟨100, 100⟩ 10
        (some ⟨(), ⟨10⟩⟩)).judge (0 : Nat)
      = some (true, RatedTicketAdmissionPolicy.mk ⟨100, 100⟩ 10
        (some ⟨(), ⟨10⟩⟩)) :=
  ⟨(judge_samples_and_debits
      (RatedTicketAdmissionPolicy.mk ⟨100, 100⟩ 0 (some ⟨(), ⟨10⟩⟩))
      ⟨(), ⟨10⟩⟩ (0 : Nat) rfl).1 (by decide),
   (judge_samples_and_debits
      (RatedTicketAdmissionPolicy.mk ⟨100, 100⟩ 10 (some ⟨(), ⟨10⟩⟩))
      ⟨(), ⟨10⟩⟩ (0 : Nat) rfl).2 (by decide)⟩

/-- Claim C3: a `NoneStoreWriter` judges every insert as rejected and its
`finish` surfaces the rejection as `Ok(false)`, never as an error. -/
theorem none_writer_rejects_ok_false {K V : Type}
    (w : NoneStoreWriter K V) (v : V) :
    w.judge = false ∧ w.finish v = Except.ok false :=
  ⟨rfl, rfl⟩

/-- Claim C4: the None store is a complete no-op — `open` always succeeds,
`is_ready` is true, `lookup` is `Ok(None)`, `exists` and `remove` are
`Ok(false)`, `clear` is `Ok(())`, and an insert through its writer always
finishes with `Ok(false)`, so an insert never reports true. -/
theorem none_store_noop {K V Q : Type} (s : NoneStore K V) (cfg : Unit)
    (k : K) (q : Q) (v : V) :
    NoneStore.openStore K V cfg = .ok {} ∧
    s.is_ready = true ∧
    s.lookup q = (.ok none : SResult (Option V)) ∧
    s.exists q = .ok false ∧
    s.remove q = .ok false ∧
    s.clear = .ok () ∧
    (s.writer k).finish v = .ok false :=
  ⟨rfl, rfl, rfl, rfl, rfl, rfl, rfl⟩

/-- Claim C5: at configuration time a zero `clean_region_threshold` is
replaced by `reclaimers`, and every non-zero value is passed through to the
store config unchanged. -/
theorem clean_region_threshold_default (a : Args) :
    (a.clean_region_threshold = 0 →
      (build_config a).clean_region_threshold = a.reclaimers) ∧
    (a.clean_region_threshold ≠ 0 →
      (build_config a).clean_region_threshold = a.clean_region_threshold) := by
  constructor <;> intro h <;> simp [build_config, h]

/-- Witness for C5: threshold 0 with 4 reclaimers yields 4; threshold 3
passes through. -/
theorem clean_region_threshold_default_witness :
    (build_config ⟨1, 0, 0, 4, 4, 8, 6⟩).clean_region_threshold = 4 ∧
    (build_config ⟨1, 0, 3, 4, 4, 8, 6⟩).clean_region_threshold = 3 :=
  ⟨(clean_region_threshold_default ⟨1, 0, 0, 4, 4, 8, 6⟩).1 rfl,
   (clean_region_threshold_default ⟨1, 0, 3, 4, 4, 8, 6⟩).2 (by decide)⟩

/-- Claim C6: the bench installs a rated-ticket admission policy exactly
when `ticket_insert_rate_limit` is positive, at the limit times 1024 times
1024 bytes per second, and analogously a rated-ticket reinsertion policy
for `ticket_reinsert_rate_limit`; a zero limit leaves the corresponding
list empty. -/
theorem rated_ticket_policies_iff (a : Args) :
    (0 < a.ticket_insert_rate_limit →
      (build_config a).admissions =
        [RatedTicketAdmissionPolicy.new
          (a.ticket_insert_rate_limit * 1024 * 1024)]) ∧
    (a.ticket_insert_rate_limit = 0 → (build_config a).admissions = []) ∧
    (0 < a.ticket_reinsert_rate_limit →
      (build_config a).reinsertions =
        [RatedTicketReinsertionPolicy.new
          (a.ticket_reinsert_rate_limit * 1024 * 1024)]) ∧
    (a.ticket_reinsert_rate_limit = 0 →
      (build_config a).reinsertions = []) := by
  refine ⟨?_, ?_, ?_, ?_⟩ <;> intro h <;> simp [build_config, h]

/-- Witness for C6: a 1 MiB/s insert limit with a zero reinsert limit
yields one admission policy at 1048576 bytes per second and no reinsertion
policy. -/
theorem rated_ticket_policies_iff_witness :
    (build_config ⟨1, 0, 0, 4, 4, 8, 6⟩).admissions =
      [RatedTicketAdmissionPolicy.new 1048576] ∧
    (build_config ⟨1, 0, 0, 4, 4, 8, 6⟩).reinsertions = [] :=
  ⟨(rated_ticket_policies_iff ⟨1, 0, 0, 4, 4, 8, 6⟩).1 (by decide),
   (rated_ticket_policies_iff ⟨1, 0, 0, 4, 4, 8, 6⟩).2.2.2 rfl⟩

/-- Claim C8: the admission decision is key-independent — from identical
policy state, `judge` returns the same boolean and successor state
whichever key is passed, even across key types. -/
theorem judge_key_independent {K1 K2 : Type}
    (p : RatedTicketAdmissionPolicy) (k1 : K1) (k2 : K2) :
    p.judge k1 = p.judge k2 :=
  rfl

/-- Claim C9: `judge` panics (models as `none`) while the context lock is
empty; after exactly one `init` from such a state, a second `init` panics
and `judge`'s context access succeeds. -/
theorem init_exactly_once {K : Type}
    (p q : RatedTicketAdmissionPolicy) (ctx ctx2 : AdmissionContext)
    (k : K) (hfresh : p.context = none) (hq : p.init ctx = some q) :
    p.judge k = none ∧ q.init ctx2 = none ∧ (q.judge k).isSome := by
  simp only [RatedTicketAdmissionPolicy.init, hfresh] at hq
  injection hq with hq
  subst hq
  refine ⟨by simp [RatedTicketAdmissionPolicy.judge, hfresh], rfl, ?_⟩
  by_cases hdelta : 0 < ctx.metrics.op_bytes_flush - p.last <;>
    simp [RatedTicketAdmissionPolicy.judge, hdelta]

/-- Witness for C9: a freshly constructed policy at rate 100, initialised
once with a context whose counter reads 0. -/
theorem init_exactly_once_witness :
    (RatedTicketAdmissionPolicy.new 100).judge (0 : Nat) = none ∧
    (RatedTicketAdmissionPolicy.mk (RatedTicket.new 100) 0
      (some ⟨(), ⟨0⟩⟩)).init ⟨(), ⟨7⟩⟩ = none ∧
    ((RatedTicketAdmissionPolicy.mk (RatedTicket.new 100) 0
      (some ⟨(), ⟨0⟩⟩)).judge (0 : Nat)).isSome :=
  init_exactly_once (RatedTicketAdmissionPolicy.new 100)
    (RatedTicketAdmissionPolicy.mk (RatedTicket.new 100) 0
      (some ⟨(), ⟨0⟩⟩))
    ⟨(), ⟨0⟩⟩ ⟨(), ⟨7⟩⟩ (0 : Nat) rfl rfl

/-- Claim C10: `on_insert` and `on_drop` leave the entire policy state —
token bucket, last sample and context — unchanged, for every key and
judgment flag. -/
theorem on_insert_on_drop_frame {K : Type}
    (p : RatedTicketAdmissionPolicy) (k : K) (j : Bool) :
    p.on_insert k j = p ∧ p.on_drop k j = p :=
  ⟨rfl, rfl⟩

end Foyer
